import Mathlib

/-!
Shallow embedding of the flux task-intake pipeline (config, file classifier,
task store, analysis engine, and the page-level handlers the claims cite),
together with theorems settling the frozen claims about it.
-/

namespace Flux

/-! ## Configuration constants (src/config.py) -/

/-- src/config.py line 112: the fixed five-stage status vocabulary. -/
def TASK_STATUSES : List String :=
  ["In Review", "Passed In Review", "In Stage", "Passed In Stage", "Done"]

/-- src/config.py lines 122-131: the fixed, ordered column schema of the sheet. -/
def SHEETS_HEADERS : List String :=
  ["Task ID", "Task Name", "Upload Date", "Status",
   "File Type", "Evidence Link", "AI Summary", "Context Notes"]

/-- src/config.py lines 97-102: the static extension-to-category table,
in dict insertion order. -/
def ALLOWED_FILE_TYPES : List (String × List String) :=
  [("video", [".mp4", ".mov"]),
   ("document", [".pdf"]),
   ("spreadsheet", [".xlsx", ".csv"]),
   ("image", [".png", ".jpg", ".jpeg"])]

/-- src/config.py lines 104-107: the flattening of the table values. -/
def ALLOWED_EXTENSIONS : List String :=
  (ALLOWED_FILE_TYPES.map Prod.snd).flatten

/-- src/config.py line 109. -/
def MAX_FILE_SIZE_MB : Nat := 100

/-! ## File classifier (src/utils/file_validator.py)

Python `Path(filename).suffix.lower()` is modelled character-exactly:
the final path component is taken, the suffix is the slice from the last
dot when that dot is neither the first nor the last character of the
component, and ASCII lowering is applied. -/

/-- Split a character list on a separator character (mirrors the component
split that `pathlib` performs on the path string). -/
def splitChar (sep : Char) : List Char → List (List Char)
  | [] => [[]]
  | c :: rest =>
    let r := splitChar sep rest
    if c = sep then [] :: r
    else
      match r with
      | [] => [[c]]
      | g :: gs => (c :: g) :: gs

/-- The final path component, as `pathlib` computes `Path(filename).name`
(empty components from repeated or trailing separators are ignored). -/
def pathFinalComponent (cs : List Char) : List Char :=
  (((splitChar '/' cs).filter (fun g => g ≠ [])).getLast?).getD []

/-- Index of the last dot in a character list, if any
(mirrors `str.rfind` over the component). -/
def lastDotIdx : List Char → Option Nat
  | [] => none
  | c :: rest =>
    match lastDotIdx rest with
    | some i => some (i + 1)
    | none => if c = '.' then some 0 else none

/-- `PurePath.suffix`: the slice of the name from its last dot, when
`0 < i < len(name) - 1`; otherwise the empty string. -/
def pySuffix (name : List Char) : List Char :=
  match lastDotIdx name with
  | some i => if 0 < i ∧ i + 1 < name.length then name.drop i else []
  | none => []

/-- `Path(filename).suffix.lower()` as used throughout the validator. -/
def fileExtOf (filename : String) : String :=
  String.mk ((pySuffix (pathFinalComponent filename.data)).map Char.toLower)

/-- src/utils/file_validator.py lines 10-26. -/
def validate_file_type (filename : String) : Bool × String :=
  let file_ext := fileExtOf filename
  if file_ext ∉ ALLOWED_EXTENSIONS then
    (false, "File type \x27" ++ file_ext ++ "\x27 not allowed. Allowed types: "
      ++ String.intercalate ", " ALLOWED_EXTENSIONS)
  else
    (true, "File type is valid")

/-- src/utils/file_validator.py lines 28-44. The source renders the
offending size in MB with one decimal place inside the message; the
message text is not load-bearing for any claim, so the size is rendered
here as whole megabytes. -/
def validate_file_size (file_size_bytes : Nat) : Bool × String :=
  let max_size_bytes := MAX_FILE_SIZE_MB * 1024 * 1024
  if file_size_bytes > max_size_bytes then
    (false, "File size (" ++ toString (file_size_bytes / (1024 * 1024))
      ++ "MB) exceeds maximum allowed size (" ++ toString MAX_FILE_SIZE_MB ++ "MB)")
  else
    (true, "File size is valid")

/-- src/utils/file_validator.py lines 46-64: first category of the static
table whose extension list contains the file extension, else "unknown". -/
def get_file_category (filename : String) : String :=
  let file_ext := fileExtOf filename
  match ALLOWED_FILE_TYPES.find? (fun ct => ct.2.contains file_ext) with
  | some ct => ct.1
  | none => "unknown"

/-- src/utils/file_validator.py lines 66-89. -/
def validate_uploaded_file (name : String) (size : Nat) : Bool × String × String :=
  let t := validate_file_type name
  if !t.1 then (false, t.2, "")
  else
    let s := validate_file_size size
    if !s.1 then (false, s.2, "")
    else (true, "File validation successful", get_file_category name)

/-- Upload page, src/pages/1_📤_Upload.py lines 45-51: when validation
fails the page calls `st.stop()` before any Drive upload, so the upload
step is attempted exactly when validation passed. -/
def upload_attempted (name : String) (size : Nat) : Bool :=
  (validate_uploaded_file name size).1

/-! ## Task store (src/services/google_sheets.py)

The backing worksheet is the grid of cell strings, header row first.
`get_all_records` models the gspread call of the same name: every row
below the header becomes a mapping keyed by the header names (short rows
are padded with empty cells, as gspread pads them). -/

/-- The worksheet grid: row 1 is the header row. -/
abbrev Worksheet := List (List String)

/-- One task row as returned by `get_all_records`: header-keyed pairs. -/
abbrev TaskRecord := List (String × String)

/-- Pad a row with empty cells up to the header width. -/
def padTo (n : Nat) (row : List String) : List String :=
  row ++ List.replicate (n - row.length) ""

/-- gspread `worksheet.get_all_records()`: every row below the header,
keyed by the header names. -/
def get_all_records (ws : Worksheet) : List TaskRecord :=
  (ws.drop 1).map (fun row => SHEETS_HEADERS.zip (padTo SHEETS_HEADERS.length row))

/-- src/services/google_sheets.py lines 120-140 (`get_all_tasks`). -/
def get_all_tasks (ws : Worksheet) : List TaskRecord :=
  get_all_records ws

/-- Python `record.get(key, default)` over a header-keyed row. -/
def recGetD (r : TaskRecord) (key default : String) : String :=
  match r.find? (fun p => p.1 == key) with
  | some p => p.2
  | none => default

/-- The `task_data` dictionary passed to `create_task`: each key the
caller may supply; an absent key takes the default of the corresponding
`task_data.get(...)` call. -/
structure TaskData where
  task_name : Option String := none
  upload_date : Option String := none
  status : Option String := none
  file_type : Option String := none
  evidence_link : Option String := none
  ai_summary : Option String := none
  context_notes : Option String := none

/-- The row that src/services/google_sheets.py lines 96-106 builds:
`task_id` is the current row count (header included), `now` is the
`datetime.now()` timestamp string used when no upload date is supplied. -/
def created_row (now : String) (task_data : TaskData) (ws : Worksheet) : List String :=
  [toString ws.length,
   task_data.task_name.getD "Untitled Task",
   task_data.upload_date.getD now,
   task_data.status.getD "In Review",
   task_data.file_type.getD "",
   task_data.evidence_link.getD "",
   task_data.ai_summary.getD "",
   task_data.context_notes.getD ""]

/-- src/services/google_sheets.py lines 79-118 (`create_task`): the task
id is the row count before the append; the built row is appended; the id
is returned as a string. -/
def create_task (now : String) (task_data : TaskData) (ws : Worksheet) : String × Worksheet :=
  let task_id := ws.length
  (toString task_id, ws ++ [created_row now task_data ws])

/-- gspread `worksheet.update_cell(row, col, value)`, 1-indexed. A
position outside the stored grid leaves the grid unchanged here; the
real API would grow the sheet, but no claim reaches that path. -/
def update_cell (rowNum colNum : Nat) (value : String) (ws : Worksheet) : Worksheet :=
  ws.mapIdx (fun i row =>
    if i + 1 = rowNum then
      row.mapIdx (fun j cell => if j + 1 = colNum then value else cell)
    else row)

/-- Python `int(task_id)` for the row-number translation; `none` models
the ValueError that the surrounding handler turns into `False`.
(`int()` also accepts surrounding whitespace and a leading plus sign;
no claim feeds such a string.) -/
def pyInt (s : String) : Option Int :=
  s.toInt?

/-- src/services/google_sheets.py lines 163-196 (`update_task_status`).
An invalid status raises ValueError before any API access; the handler
catches every exception and returns `False` with the sheet untouched.
On the write path the row number is `int(task_id) + 1` (header offset)
and only the Status column is written. -/
def update_task_status (task_id new_status : String) (ws : Worksheet) : Bool × Worksheet :=
  if new_status ∉ TASK_STATUSES then
    (false, ws)
  else
    match pyInt task_id with
    | none => (false, ws)
    | some n =>
      let row_num := n + 1
      let status_col_index := SHEETS_HEADERS.indexOf "Status" + 1
      if row_num ≤ 0 then
        (false, ws)
      else
        (true, update_cell row_num.toNat status_col_index new_status ws)

/-- A Python datetime value (what `datetime.strptime` returns and what
`get_tasks_by_date_range` compares); only the six parsed fields matter. -/
structure PyDateTime where
  year : Nat
  month : Nat
  day : Nat
  hour : Nat
  minute : Nat
  second : Nat
deriving DecidableEq

/-- A numeric key that orders `PyDateTime` exactly as Python orders
datetimes (field-lexicographically), for every value whose fields are in
the ranges the datetime constructor enforces. -/
def dtKey (t : PyDateTime) : Nat :=
  ((((t.year * 13 + t.month) * 32 + t.day) * 24 + t.hour) * 60 + t.minute) * 60 + t.second

/-- Python `<=` on datetimes. -/
def dtLe (a b : PyDateTime) : Prop :=
  dtKey a ≤ dtKey b

instance : DecidablePred fun p : PyDateTime × PyDateTime => dtLe p.1 p.2 :=
  fun _ => Nat.decLe _ _

instance (a b : PyDateTime) : Decidable (dtLe a b) :=
  Nat.decLe _ _

/-- Longest digit prefix of a character list. -/
def takeDigits : List Char → List Char × List Char
  | [] => ([], [])
  | c :: rest =>
    if c.isDigit then
      let r := takeDigits rest
      (c :: r.1, r.2)
    else ([], c :: rest)

/-- Numeric value of a digit list. -/
def digitsToNat (ds : List Char) : Nat :=
  ds.foldl (fun a c => a * 10 + (c.toNat - 48)) 0

/-- One numeric strptime field of one or two digits whose value lies in
`[lo, hi]`: exactly the strings the CPython `_strptime` regular
expression alternations accept for `%m`, `%d`, `%H`, `%M`, `%S`, given
that the following format character is a non-digit literal. -/
def parseNumField (lo hi : Nat) (cs : List Char) : Option (Nat × List Char) :=
  let r := takeDigits cs
  if r.1.length = 1 ∨ r.1.length = 2 then
    let v := digitsToNat r.1
    if lo ≤ v ∧ v ≤ hi then some (v, r.2) else none
  else none

/-- The `%Y` field: exactly four digits. -/
def parseYear4 (cs : List Char) : Option (Nat × List Char) :=
  match cs with
  | a :: b :: c :: d :: rest =>
    if a.isDigit && b.isDigit && c.isDigit && d.isDigit then
      some (digitsToNat [a, b, c, d], rest)
    else none
  | _ => none

/-- One literal character of the format string. -/
def parseLit (c : Char) : List Char → Option (List Char)
  | [] => none
  | x :: rest => if x = c then some rest else none

/-- Gregorian leap-year rule, as Python `calendar`/`datetime` use it. -/
def isLeapYear (y : Nat) : Bool :=
  (y % 4 == 0 && y % 100 != 0) || y % 400 == 0

/-- Days in a month, as the datetime constructor validates them. -/
def daysInMonth (y m : Nat) : Nat :=
  if m = 2 then (if isLeapYear y then 29 else 28)
  else if m = 4 ∨ m = 6 ∨ m = 9 ∨ m = 11 then 30
  else 31

/-- `datetime.strptime(s, "%Y-%m-%d %H:%M:%S")`: the regex match for the
format (four-digit year, one-or-two-digit numeric fields with the regex
range bounds, literal separators, the whole string consumed) followed by
the datetime constructor checks (year at least 1, day within the month,
second at most 59 — the regex would pass 60 and 61 through, but the
constructor rejects them, so the net bound is 59). `none` models the
ValueError. -/
def strptimeYmdHms (s : String) : Option PyDateTime := do
  let (y, r1) ← parseYear4 s.data
  let r2 ← parseLit '-' r1
  let (mo, r3) ← parseNumField 1 12 r2
  let r4 ← parseLit '-' r3
  let (d, r5) ← parseNumField 1 31 r4
  let r6 ← parseLit ' ' r5
  let (h, r7) ← parseNumField 0 23 r6
  let r8 ← parseLit ':' r7
  let (mi, r9) ← parseNumField 0 59 r8
  let r10 ← parseLit ':' r9
  let (sec, r11) ← parseNumField 0 59 r10
  if r11 = [] ∧ 1 ≤ y ∧ d ≤ daysInMonth y mo then
    some ⟨y, mo, d, h, mi, sec⟩
  else
    none

/-- src/services/google_sheets.py lines 230-260
(`get_tasks_by_date_range`): walk all tasks, keep those whose
`Upload Date` cell is non-empty, parses, and lies in
`[start_date, end_date]` inclusive; a ValueError from parsing skips the
row (`continue`). -/
def date_range_step (start_date end_date : PyDateTime)
    (filtered : List TaskRecord) (task : TaskRecord) : List TaskRecord :=
  let upload_date_str := recGetD task "Upload Date" ""
  if upload_date_str ≠ "" then
    match strptimeYmdHms upload_date_str with
    | some upload_date =>
      if dtLe start_date upload_date ∧ dtLe upload_date end_date then
        filtered ++ [task]
      else filtered
    | none => filtered
  else filtered

def get_tasks_by_date_range (start_date end_date : PyDateTime) (ws : Worksheet) :
    List TaskRecord :=
  let all_tasks := get_all_tasks ws
  all_tasks.foldl (date_range_step start_date end_date) []

def in_range_with_parsed_date (start_date end_date : PyDateTime) (task : TaskRecord) : Bool :=
  match strptimeYmdHms (recGetD task "Upload Date" "") with
  | some d => decide (dtLe start_date d ∧ dtLe d end_date)
  | none => false

/-! ## Analysis engine (src/services/gemini_processor.py)

The external collaborators are parameters: `json_loads` stands for the
stdlib JSON decoder (`none` is json.JSONDecodeError), and a `GeminiEnv`
holds the outcome of each external Gemini API call (`Except.error`
models the exception the call raises). -/

/-- Python str.strip(): drop leading and trailing whitespace. -/
def pyStripChars (cs : List Char) : List Char :=
  ((cs.dropWhile Char.isWhitespace).reverse.dropWhile Char.isWhitespace).reverse

/-- Python str.strip() on a string value. -/
def pyStrip (s : String) : String :=
  String.mk (pyStripChars s.data)

/-- A decoded JSON value: what json.loads hands back on success, and the
shape of the dictionaries the engine builds itself. -/
inductive Json where
  | null
  | bool (b : Bool)
  | num (n : Int)
  | str (s : String)
  | arr (elems : List Json)
  | obj (fields : List (String × Json))

/-- Dictionary lookup on a JSON object. -/
def jsonGet (j : Json) (key : String) : Option Json :=
  match j with
  | Json.obj fields =>
    match fields.find? (fun p => p.1 == key) with
    | some p => some p.2
    | none => none
  | _ => none

/-- src/services/gemini_processor.py lines 228-237: strip, drop a
leading ```json fence (7 characters) or ``` fence (3 characters), drop
a trailing ``` fence, strip again. -/
def strip_markdown_fences (response_text : String) : String :=
  let text := pyStripChars response_text.data
  let text := if ("```json".data).isPrefixOf text then text.drop 7 else text
  let text := if ("```".data).isPrefixOf text then text.drop 3 else text
  let text := if ("```".data.reverse).isPrefixOf text.reverse then
      text.take (text.length - 3)
    else text
  String.mk (pyStripChars text)

/-- src/services/gemini_processor.py lines 222-250
(`_parse_json_response`): decode the fence-stripped text; on
json.JSONDecodeError return the fallback dictionary carrying the
original response text under "summary" and the raw_response flag. -/
def parse_json_response (json_loads : String → Option Json)
    (response_text : String) : Json :=
  match json_loads (strip_markdown_fences response_text) with
  | some result => result
  | none =>
    Json.obj [("task_name", Json.str "Untitled Task"),
              ("summary", Json.str response_text),
              ("raw_response", Json.bool true)]

/-- Outcomes of the external Gemini API calls during one analysis:
`upload_file` is genai.upload_file together with the PROCESSING poll
loop (lines 110-115 resp. line 162); `generate_content` is the single
model.generate_content call, valued at response.text on success. -/
structure GeminiEnv where
  upload_file : Except String Unit
  generate_content : Except String String

/-- Result of a staged-media processing method: the returned value or
propagated exception, whether os.unlink ran on the staged temp file,
and how many generate_content calls were made. -/
structure MediaCallResult where
  outcome : Except String Json
  temp_file_deleted : Bool
  generate_calls : Nat

/-- src/services/gemini_processor.py lines 93-128 (`_process_video`):
stage the bytes in a temp file, upload and poll, call the model once,
unlink the temp file (line 122), parse. An exception anywhere re-raises
(lines 126-128); the unlink on line 122 runs only after a successful
generate_content call. -/
def process_video (env : GeminiEnv) (json_loads : String → Option Json) :
    MediaCallResult :=
  match env.upload_file with
  | Except.error e => ⟨Except.error e, false, 0⟩
  | Except.ok _ =>
    match env.generate_content with
    | Except.error e => ⟨Except.error e, false, 1⟩
    | Except.ok text => ⟨Except.ok (parse_json_response json_loads text), true, 1⟩

/-- src/services/gemini_processor.py lines 148-175 (`_process_document`):
same staging shape as `_process_video`; the unlink on line 169 runs only
after a successful generate_content call. -/
def process_document (env : GeminiEnv) (json_loads : String → Option Json) :
    MediaCallResult :=
  match env.upload_file with
  | Except.error e => ⟨Except.error e, false, 0⟩
  | Except.ok _ =>
    match env.generate_content with
    | Except.error e => ⟨Except.error e, false, 1⟩
    | Except.ok text => ⟨Except.ok (parse_json_response json_loads text), true, 1⟩

/-- src/services/gemini_processor.py lines 130-146 (`_process_image`):
one generate_content call, then parse; exceptions re-raise. -/
def process_image (env : GeminiEnv) (json_loads : String → Option Json) :
    Except String Json × Nat :=
  match env.generate_content with
  | Except.error e => (Except.error e, 1)
  | Except.ok text => (Except.ok (parse_json_response json_loads text), 1)

/-- src/services/gemini_processor.py lines 177-209
(`_process_spreadsheet`): the pandas preview is folded into the prompt,
which the opaque generate_content outcome already accounts for; one
model call, then parse. -/
def process_spreadsheet (env : GeminiEnv) (json_loads : String → Option Json) :
    Except String Json × Nat :=
  match env.generate_content with
  | Except.error e => (Except.error e, 1)
  | Except.ok text => (Except.ok (parse_json_response json_loads text), 1)

/-- src/services/gemini_processor.py lines 211-220 (`_process_generic`). -/
def process_generic (env : GeminiEnv) (json_loads : String → Option Json) :
    Except String Json × Nat :=
  match env.generate_content with
  | Except.error e => (Except.error e, 1)
  | Except.ok text => (Except.ok (parse_json_response json_loads text), 1)

/-- The fallback dictionary of src/services/gemini_processor.py lines
87-91, returned when any processing step raised. -/
def process_file_error_result (filename e : String) : Json :=
  Json.obj [("task_name", Json.str ("Error processing " ++ filename)),
            ("summary", Json.str ("Failed to analyze file: " ++ e)),
            ("error", Json.bool true)]

/-- src/services/gemini_processor.py lines 48-91 (`process_file`):
dispatch on the category, and turn any exception from the dispatched
method into the error-flagged fallback dictionary. The second component
counts generate_content calls. -/
def process_file (env : GeminiEnv) (json_loads : String → Option Json)
    (filename file_category : String) : Json × Nat :=
  let step : Except String Json × Nat :=
    if file_category = "video" then
      let r := process_video env json_loads
      (r.outcome, r.generate_calls)
    else if file_category = "image" then
      process_image env json_loads
    else if file_category = "document" then
      let r := process_document env json_loads
      (r.outcome, r.generate_calls)
    else if file_category = "spreadsheet" then
      process_spreadsheet env json_loads
    else
      process_generic env json_loads
  match step.1 with
  | Except.ok result => (result, step.2)
  | Except.error e => (process_file_error_result filename e, step.2)

/-! ## Derived-document generation and the pages that drive it -/

/-- src/config.py lines 115-119. -/
def NEGATIVE_CONSTRAINTS : List String :=
  ["Do NOT use the word \x27verify\x27 in test cases",
   "Use \x27check\x27, \x27validate\x27, or \x27confirm\x27 instead of \x27verify\x27",
   "Be specific and actionable in all descriptions"]

/-- src/prompts/templates.py lines 9-12. -/
def CONSTRAINTS_REMINDER : String :=
  String.intercalate "\n\n"
    ("IMPORTANT CONSTRAINTS:" :: NEGATIVE_CONSTRAINTS.map (fun c => "- " ++ c))

/-- src/prompts/templates.py lines 111-130. -/
def TEST_CASE_GENERATION_PROMPT : String :=
  "You are generating test cases for TestRail based on completed tasks.\n\n"
  ++ "Input: A list of tasks with their summaries and evidence.\n\n"
  ++ "Your task:\n"
  ++ "1. Create comprehensive test cases covering all functionality\n"
  ++ "2. Format for TestRail CSV import (columns: ID, Title, Steps, Expected Result, Priority)\n"
  ++ "3. Make steps clear, specific, and actionable\n"
  ++ "4. Ensure test cases are independent and repeatable\n\n"
  ++ "Output format:\n"
  ++ "- CSV with headers: Test Case ID, Title, Steps, Expected Result, Priority\n"
  ++ "- Each row should be a separate test case\n"
  ++ "- Steps should be numbered and clear\n"
  ++ "- Expected results should be specific and measurable\n\n"
  ++ CONSTRAINTS_REMINDER
  ++ "\n\nGenerate the CSV content now.\n"

/-- src/services/gemini_processor.py lines 266-271: the flattened task
digest joined into the prompt. -/
def tasks_context_for_test_cases (tasks : List TaskRecord) : String :=
  String.intercalate "\n\n"
    (tasks.enum.map (fun it =>
      "Task " ++ toString (it.1 + 1) ++ ": " ++ recGetD it.2 "Task Name" "Untitled" ++ "\n"
      ++ "Summary: " ++ recGetD it.2 "AI Summary" "No summary" ++ "\n"
      ++ "Evidence: " ++ recGetD it.2 "Evidence Link" "N/A"))

/-- src/services/gemini_processor.py lines 252-281
(`generate_test_cases`): build the flattened prompt, call the model once
(here `generate_content` is the external model as a function of the
prompt), return its stripped text, or the fixed error string when the
call raised. The second component counts generate_content calls. -/
def generate_test_cases (generate_content : String → Except String String)
    (tasks : List TaskRecord) : String × Nat :=
  let tasks_context := tasks_context_for_test_cases tasks
  let full_prompt := TEST_CASE_GENERATION_PROMPT ++ "\n\nTasks:\n" ++ tasks_context
  match generate_content full_prompt with
  | Except.ok text => (pyStrip text, 1)
  | Except.error _ => ("Error generating test cases", 1)

/-- What the Test Cases tab of the Generate page renders. -/
inductive TestCasesTabResult where
  | warnNoTasks
  | generated (csv : String)

/-- src/pages/3_⚡_Generate.py lines 43-59: with no Done tasks the tab
shows the no-completed-tasks warning and renders no Generate button, so
the engine is never reached; otherwise pressing the button runs
`generate_test_cases` on the Done tasks. The second component counts
generate_content calls. -/
def test_cases_tab (generate_content : String → Except String String)
    (done_tasks : List TaskRecord) : TestCasesTabResult × Nat :=
  if done_tasks.length = 0 then
    (TestCasesTabResult.warnNoTasks, 0)
  else
    let r := generate_test_cases generate_content done_tasks
    (TestCasesTabResult.generated r.1, r.2)

/-! ## Quick Notes save handler (src/pages/4_📝_Quick_Notes.py) -/

/-- What the save handler leaves on screen. -/
inductive SaveNoteOutcome where
  | saved (task_id : String)
  | errorShown (message : String)

/-- src/pages/4_📝_Quick_Notes.py lines 68-140, the Save Note button
handler: `note_content` is non-empty (the button is disabled otherwise)
and `note_title` has already been defaulted (lines 70-71).
`ai_summary` starts as the raw text; when enhancement is requested the
single gemini.model.generate_content call replaces it, and an exception
from that call propagates to the page-level handler (lines 138-140),
which shows an error — `create_task` does not run in that case. -/
def save_note (enhance_generate : Except String String) (now : String)
    (enhance_with_ai : Bool) (note_title note_content note_status : String)
    (ws : Worksheet) : SaveNoteOutcome × Worksheet :=
  let enhanced : Except String String :=
    if enhance_with_ai then enhance_generate else Except.ok note_content
  match enhanced with
  | Except.error e => (SaveNoteOutcome.errorShown ("Error saving note: " ++ e), ws)
  | Except.ok ai_summary =>
    let task_data : TaskData :=
      { task_name := some note_title,
        upload_date := some now,
        status := some note_status,
        file_type := some "note",
        evidence_link := some "",
        ai_summary := some ai_summary,
        context_notes := some note_content }
    let r := create_task now task_data ws
    (SaveNoteOutcome.saved r.1, r.2)

/-! ## Theorems settling the claims -/

/-- C1: for every task id and every status string outside the fixed
five-value set, `update_task_status` returns failure (false), performs
no write, and leaves every stored row — in particular every stored
status — unchanged. -/
theorem c1_invalid_status_rejected (task_id new_status : String) (ws : Worksheet)
    (h : new_status ∉ TASK_STATUSES) :
    update_task_status task_id new_status ws = (false, ws) := by
  simp [update_task_status, h]

/-- Witness for C1 at a concrete sheet, task id and invalid status. -/
theorem c1_witness :
    update_task_status "1" "Cancelled"
        [["Task ID", "Task Name", "Upload Date", "Status",
          "File Type", "Evidence Link", "AI Summary", "Context Notes"],
         ["1", "Login bug", "2024-01-15 10:30:00", "Done", "image", "", "", ""]]
      = (false,
         [["Task ID", "Task Name", "Upload Date", "Status",
           "File Type", "Evidence Link", "AI Summary", "Context Notes"],
          ["1", "Login bug", "2024-01-15 10:30:00", "Done", "image", "", "", ""]]) :=
  c1_invalid_status_rejected _ _ _ (by decide)

/-- C2 evidence: with AI enhancement requested and the enhancement call
failing, the save handler shows an error and leaves the sheet unchanged
— no row carrying the raw note text is created, refuting the claim. -/
theorem c2_enhancement_failure_blocks_storage :
    save_note (Except.error "quota exceeded") "2024-01-15 10:30:00" true
        "Bug in login page" "repro on mobile" "In Review"
        [["Task ID", "Task Name", "Upload Date", "Status",
          "File Type", "Evidence Link", "AI Summary", "Context Notes"]]
      = (SaveNoteOutcome.errorShown "Error saving note: quota exceeded",
         [["Task ID", "Task Name", "Upload Date", "Status",
           "File Type", "Evidence Link", "AI Summary", "Context Notes"]]) := rfl

/-- C3: when the model call fails (and staging, where present,
succeeded), `process_file` surfaces the failure to the caller as the
error-flagged fallback result, and the model was invoked exactly once —
the engine never retries. -/
theorem c3_model_failure_surfaces (env : GeminiEnv) (json_loads : String → Option Json)
    (filename file_category : String)
    (hup : env.upload_file = Except.ok ())
    (e : String) (hgen : env.generate_content = Except.error e) :
    process_file env json_loads filename file_category
      = (process_file_error_result filename e, 1) := by
  unfold process_file
  split_ifs <;>
    simp [process_video, process_document, process_image, process_spreadsheet,
      process_generic, hup, hgen]

/-- Witness for C3 on a failing video analysis. -/
theorem c3_witness :
    process_file ⟨Except.ok (), Except.error "503 quota exceeded"⟩ (fun _ => none)
        "clip.mp4" "video"
      = (process_file_error_result "clip.mp4" "503 quota exceeded", 1) :=
  c3_model_failure_surfaces _ _ _ _ rfl _ rfl

/-- C4: response parsing strips the markdown code fences and then
JSON-decodes; whenever the fence-stripped content is not valid JSON the
parse is a total function returning the fallback dictionary whose
summary field is the original raw response text, flagged with
raw_response = true. -/
theorem c4_parse_fallback (json_loads : String → Option Json) (response_text : String)
    (h : json_loads (strip_markdown_fences response_text) = none) :
    parse_json_response json_loads response_text
      = Json.obj [("task_name", Json.str "Untitled Task"),
                  ("summary", Json.str response_text),
                  ("raw_response", Json.bool true)] := by
  simp [parse_json_response, h]

/-- Witness for C4 on the spec scenario text, with a decoder that
accepts only the empty JSON object. -/
theorem c4_witness :
    parse_json_response
        (fun s => if s == "\x7b\x7d" then some (Json.obj []) else none)
        "not json at all"
      = Json.obj [("task_name", Json.str "Untitled Task"),
                  ("summary", Json.str "not json at all"),
                  ("raw_response", Json.bool true)] :=
  c4_parse_fallback _ _ (by rfl)

/-- C5: on a store with the header row present and the generated id not
already present, `create_task` followed by `get_all_tasks` yields the
old rows plus exactly one new row whose field values are the supplied
task data (status defaulting to "In Review", name to the "Untitled
Task" placeholder, date to the current timestamp), keyed by the eight
schema columns in their fixed order with no field dropped. -/
theorem c5_create_roundtrip (now : String) (task_data : TaskData) (ws : Worksheet)
    (hheader : 1 ≤ ws.length)
    (hfresh : ∀ r ∈ get_all_tasks ws, recGetD r "Task ID" "" ≠ toString ws.length) :
    get_all_tasks (create_task now task_data ws).2
      = get_all_tasks ws ++ [SHEETS_HEADERS.zip (created_row now task_data ws)] ∧
    (get_all_tasks (create_task now task_data ws).2).count
        (SHEETS_HEADERS.zip (created_row now task_data ws)) = 1 ∧
    (SHEETS_HEADERS.zip (created_row now task_data ws)).map Prod.fst = SHEETS_HEADERS := by
  have hrow : padTo SHEETS_HEADERS.length (created_row now task_data ws)
      = created_row now task_data ws := by
    simp [padTo, created_row, SHEETS_HEADERS]
  have happend : get_all_tasks (create_task now task_data ws).2
      = get_all_tasks ws ++ [SHEETS_HEADERS.zip (created_row now task_data ws)] := by
    unfold get_all_tasks get_all_records create_task
    rw [List.drop_append_of_le_length hheader]
    simp [hrow]
  have hid : recGetD (SHEETS_HEADERS.zip (created_row now task_data ws)) "Task ID" ""
      = toString ws.length := by
    simp [recGetD, SHEETS_HEADERS, created_row]
  refine ⟨happend, ?_, ?_⟩
  · rw [happend, List.count_append]
    have hzero : (get_all_tasks ws).count (SHEETS_HEADERS.zip (created_row now task_data ws)) = 0 := by
      rw [List.count_eq_zero]
      intro hmem
      exact hfresh _ hmem hid
    rw [hzero]
    simp
  · simp [SHEETS_HEADERS, created_row]

/-- Witness for C5: creating the Login bug task on a header-only sheet
yields exactly one matching row. -/
theorem c5_witness :
    (get_all_tasks (create_task "2024-01-15 10:30:00"
        ⟨some "Login bug", none, none, some "image", none, none, some "repro on mobile"⟩
        [["Task ID", "Task Name", "Upload Date", "Status",
          "File Type", "Evidence Link", "AI Summary", "Context Notes"]]).2).count
      (SHEETS_HEADERS.zip (created_row "2024-01-15 10:30:00"
        ⟨some "Login bug", none, none, some "image", none, none, some "repro on mobile"⟩
        [["Task ID", "Task Name", "Upload Date", "Status",
          "File Type", "Evidence Link", "AI Summary", "Context Notes"]])) = 1 :=
  (c5_create_roundtrip _ _ _ (by decide)
    (by intro r hr; simp [get_all_tasks, get_all_records] at hr)).2.1

/-- C6 counterexample: `generate_test_cases` applied to the empty list
invokes the model (one generate_content call, not zero) and returns the
model text rather than a nothing-to-generate report. -/
theorem c6_counterexample :
    (generate_test_cases
        (fun _ => Except.ok "Test Case ID,Title,Steps,Expected Result,Priority") []).2 = 1 ∧
    (generate_test_cases
        (fun _ => Except.ok "Test Case ID,Title,Steps,Expected Result,Priority") []).1
      = "Test Case ID,Title,Steps,Expected Result,Priority" :=
  ⟨rfl, rfl⟩

/-- C6 amended: the empty-set guard lives in the Generate page, not the
engine: with no Done tasks the Test Cases tab reports
no-completed-tasks and performs zero model calls, while
`generate_test_cases` itself, on the empty list, still invokes the
model exactly once. -/
theorem c6_empty_set_guard (generate_content : String → Except String String)
    (done_tasks : List TaskRecord) (h : done_tasks = []) :
    test_cases_tab generate_content done_tasks = (TestCasesTabResult.warnNoTasks, 0) ∧
    (generate_test_cases generate_content done_tasks).2 = 1 := by
  subst h
  constructor
  · rfl
  · cases hc : generate_content
        (TEST_CASE_GENERATION_PROMPT ++ "\n\nTasks:\n" ++ tasks_context_for_test_cases []) <;>
      simp [generate_test_cases, hc]

/-- Witness for C6 amended at the empty task list. -/
theorem c6_witness :
    test_cases_tab (fun _ => Except.ok "csv") [] = (TestCasesTabResult.warnNoTasks, 0) ∧
    (generate_test_cases (fun _ => Except.ok "csv") []).2 = 1 :=
  c6_empty_set_guard _ [] rfl

/-- C7 evidence: after a failing generate_content call the staged temp
file of a video or PDF analysis is NOT deleted (the unlink line is
skipped when the exception propagates), while on the success path it is
— refuting release-on-both-paths. -/
theorem c7_staged_bytes_leak_on_failure :
    (process_video ⟨Except.ok (), Except.error "transport error"⟩
        (fun _ => none)).temp_file_deleted = false ∧
    (process_document ⟨Except.ok (), Except.error "transport error"⟩
        (fun _ => none)).temp_file_deleted = false ∧
    (process_video ⟨Except.ok (), Except.ok "analysis text"⟩
        (fun _ => none)).temp_file_deleted = true ∧
    (process_document ⟨Except.ok (), Except.ok "analysis text"⟩
        (fun _ => none)).temp_file_deleted = true :=
  ⟨rfl, rfl, rfl, rfl⟩

/-- One step of the date-range loop keeps a task exactly when its
Upload Date parses and lies in the inclusive range. -/
theorem date_range_step_eq (s e : PyDateTime) (acc : List TaskRecord) (t : TaskRecord) :
    date_range_step s e acc t = acc ++ (if in_range_with_parsed_date s e t then [t] else []) := by
  unfold date_range_step in_range_with_parsed_date
  by_cases hs : recGetD t "Upload Date" "" = ""
  · rw [hs]
    simp [show strptimeYmdHms "" = none from rfl]
  · cases hp : strptimeYmdHms (recGetD t "Upload Date" "") with
    | none => simp [hs, hp]
    | some d =>
      by_cases hr : dtLe s d ∧ dtLe d e
      · simp [hs, hp, hr]
      · simp [hs, hp, hr]

/-- The date-range loop is the filter by parsed-and-in-range. -/
theorem date_range_fold_eq (s e : PyDateTime) (tasks acc : List TaskRecord) :
    tasks.foldl (date_range_step s e) acc
      = acc ++ tasks.filter (in_range_with_parsed_date s e) := by
  induction tasks generalizing acc with
  | nil => simp
  | cons t ts ih =>
    rw [List.foldl_cons, ih, date_range_step_eq, List.filter_cons]
    cases hp : in_range_with_parsed_date s e t <;> simp [hp]

/-- C8: the date-range query returns exactly those rows whose Upload
Date cell parses in the %Y-%m-%d %H:%M:%S format and falls within
[start_date, end_date] inclusive; a row whose date cell fails to parse
(including rows among otherwise valid ones) is silently skipped, and the
query is a total function — it never raises. -/
theorem c8_date_range_query (start_date end_date : PyDateTime) (ws : Worksheet) :
    get_tasks_by_date_range start_date end_date ws
      = (get_all_tasks ws).filter (in_range_with_parsed_date start_date end_date) := by
  unfold get_tasks_by_date_range
  rw [date_range_fold_eq]
  simp

/-- C9: classification is the static extension-table lookup
(.mp4/.mov → video, .pdf → document, .xlsx/.csv → spreadsheet,
.png/.jpg/.jpeg → image); every accepted extension yields one of the
four categories, and any other extension yields "unknown", fails
validation, and the upload step is never attempted. -/
theorem c9_classification (filename : String) (size : Nat) :
    (fileExtOf filename ∈ ALLOWED_EXTENSIONS →
        get_file_category filename ∈ ["video", "document", "spreadsheet", "image"]) ∧
    (fileExtOf filename ∈ [".mp4", ".mov"] → get_file_category filename = "video") ∧
    (fileExtOf filename = ".pdf" → get_file_category filename = "document") ∧
    (fileExtOf filename ∈ [".xlsx", ".csv"] → get_file_category filename = "spreadsheet") ∧
    (fileExtOf filename ∈ [".png", ".jpg", ".jpeg"] → get_file_category filename = "image") ∧
    (fileExtOf filename ∉ ALLOWED_EXTENSIONS →
        get_file_category filename = "unknown" ∧
        (validate_file_type filename).1 = false ∧
        upload_attempted filename size = false) := by
  refine ⟨?_, ?_, ?_, ?_, ?_, ?_⟩
  · intro h
    simp [ALLOWED_EXTENSIONS, ALLOWED_FILE_TYPES] at h
    rcases h with h|h|h|h|h|h|h|h <;>
      simp [get_file_category, ALLOWED_FILE_TYPES, List.find?, h]
  · intro h
    simp at h
    rcases h with h|h <;> simp [get_file_category, ALLOWED_FILE_TYPES, List.find?, h]
  · intro h
    simp [get_file_category, ALLOWED_FILE_TYPES, List.find?, h]
  · intro h
    simp at h
    rcases h with h|h <;> simp [get_file_category, ALLOWED_FILE_TYPES, List.find?, h]
  · intro h
    simp at h
    rcases h with h|h|h <;> simp [get_file_category, ALLOWED_FILE_TYPES, List.find?, h]
  · intro h
    simp [ALLOWED_EXTENSIONS, ALLOWED_FILE_TYPES] at h
    obtain ⟨h1, h2, h3, h4, h5, h6, h7, h8⟩ := h
    refine ⟨?_, ?_, ?_⟩
    · simp [get_file_category, ALLOWED_FILE_TYPES, List.find?, h1, h2, h3, h4, h5, h6, h7, h8]
    · simp [validate_file_type, ALLOWED_EXTENSIONS, ALLOWED_FILE_TYPES, h1, h2, h3, h4, h5, h6, h7, h8]
    · simp [upload_attempted, validate_uploaded_file, validate_file_type,
        ALLOWED_EXTENSIONS, ALLOWED_FILE_TYPES, h1, h2, h3, h4, h5, h6, h7, h8]

/-- Witness for C9 at a rejected extension. -/
theorem c9_witness :
    get_file_category "evil.exe" = "unknown" ∧
    (validate_file_type "evil.exe").1 = false ∧
    upload_attempted "evil.exe" 0 = false :=
  (c9_classification "evil.exe" 0).2.2.2.2.2 (by decide)

/-- C10: size validation uses a strict inequality against
MAX_FILE_SIZE_MB * 1024 * 1024 = 104857600 bytes: a file of exactly that
size passes, and exactly the strictly larger files are rejected. -/
theorem c10_size_bound_strict :
    (validate_file_size (MAX_FILE_SIZE_MB * 1024 * 1024)).1 = true ∧
    MAX_FILE_SIZE_MB * 1024 * 1024 = 104857600 ∧
    ∀ file_size_bytes : Nat,
      (validate_file_size file_size_bytes).1 = decide (file_size_bytes ≤ 104857600) := by
  refine ⟨by decide, by decide, ?_⟩
  intro n
  by_cases h : n > MAX_FILE_SIZE_MB * 1024 * 1024
  · simp only [validate_file_size, MAX_FILE_SIZE_MB] at h ⊢
    rw [if_pos h]
    simp
    omega
  · simp only [validate_file_size, MAX_FILE_SIZE_MB] at h ⊢
    rw [if_neg h]
    simp
    omega

end Flux
